import Mathlib

/-!
# Durak rule engine (`src/games/durak/game.js`)

A shallow embedding of the game module: the deck constructor, `deal_cards`,
`setup`, the five moves and the turn-end hook, followed by the properties
established about them.

JavaScript values are modelled as follows.
* A card object `{value, suit}` is a `Card`; a property that an object literal
  leaves out (`roundTemplate` writes `{ value: '2' }`) is `none`.
* `undefined` as an array entry (what `deck.shift()` yields on an empty array)
  is `none` in a list of `Option Card`.
* A move call ends in one of four ways, see `MoveResult`; the state object as
  it stands after the call (moves mutate `G` in place) is carried next to it.
* States are values. In the code `setup` and `onTurnEnd` store the one
  module-level object `roundTemplate` in `G.currentRound`, and `acknowledge`
  pushes into the `acknowledged` array of whatever round `G` holds; the ids
  pushed while the round is the template stay in the template. That sharing is
  not modelled: `setup` and `onTurnEnd` install the template as written in the
  source. Nothing writes to the template's `slots`, `defender` or `attackers`,
  so these read the same in the code; no property below reads the
  `acknowledged` list of a round that `setup` or `onTurnEnd` installed.
-/

set_option linter.unusedVariables false

namespace Durak

/-! ## Data model -/

/-- A card object. `createDeck` sets both properties; the placeholder cards of
`roundTemplate` carry a value only. -/
structure Card where
  value : String
  suit : Option String
  deriving DecidableEq, Repr

/-- A battlefield slot `{playerId, attack, defend}`; `defend` may be absent
(the code tests `if (slot.defend)`). -/
structure Slot where
  playerId : Nat
  attack : Card
  defend : Option Card
  deriving DecidableEq, Repr

/-- A player reference inside the round (`defender`, entries of `attackers`):
an object whose `id` property may be missing, as in the template's `{}`. -/
structure PlayerRef where
  id : Option Nat
  deriving DecidableEq, Repr

/-- The round object, shaped as `roundTemplate`. -/
structure Round where
  slots : List Slot
  defender : PlayerRef
  attackers : List PlayerRef
  acknowledged : List Nat
  done : Bool
  deriving DecidableEq, Repr

/-- A player object as built by `playerTemplate`. Hand entries come out of
`deal_cards`, so an entry may be `undefined`. -/
structure Player where
  id : Nat
  hand : List (Option Card)
  beaten : List (Option Card)
  deriving DecidableEq, Repr

/-- The game state `G` returned by `setup`. -/
structure GameState where
  deck : List Card
  players : List Player
  trump : Option Card
  currentRound : Round
  deriving DecidableEq, Repr

/-- The part of boardgame.io's `ctx` that `setup` reads: the player count and
the random shuffle. -/
structure Ctx where
  numPlayers : Nat
  Shuffle : List Card → List Card

/-! ## Deck -/

def suits : List String := ["Spades", "Hearts", "Diamonds", "Clubs"]

def values : List String := ["6", "7", "8", "9", "10", "J", "Q", "K", "A"]

/-- The function `createDeck`: the nested `forEach` over suits, then values, pushing
`{value, suit}`. -/
def createDeck : List Card :=
  suits.foldl
    (fun deck suit =>
      values.foldl (fun deck value => deck ++ [{ value := value, suit := some suit }]) deck)
    []

/-- The constant `roundTemplate`: one slot holding two placeholder cards, an empty defender
object, one empty attacker object, nobody acknowledged. -/
def roundTemplate : Round :=
  { slots := [{ playerId := 0
                attack := { value := "2", suit := none }
                defend := some { value := "K", suit := none } }]
    defender := { id := none }
    attackers := [{ id := none }]
    acknowledged := []
    done := false }

/-- The function `playerTemplate(id)`. -/
def playerTemplate (id : Nat) : Player :=
  { id := id, hand := [], beaten := [] }

/-- The loop of `deal_cards`: each pass does `dealt.push(deck.shift())`.
`shift` on an empty array returns `undefined` and leaves the array empty. -/
def deal_cards_loop : Nat → List Card → List (Option Card) → List (Option Card) × List Card
  | 0, deck, dealt => (dealt, deck)
  | k + 1, deck, dealt => deal_cards_loop k deck.tail (dealt ++ [deck.head?])

/-- The function `deal_cards(deck, count)`: the returned array, paired with the deck array
as the call leaves it. -/
def deal_cards (deck : List Card) (count : Nat) : List (Option Card) × List Card :=
  deal_cards_loop count deck []

/-- The body of `players.forEach((player) => { player.hand =
player.hand.concat(deal_cards(deck, 3)) })`, threading the shared deck array
from one player to the next. -/
def handCards : List Player → List Card → List Player × List Card
  | [], deck => ([], deck)
  | player :: rest, deck =>
    let dealt := deal_cards deck 3
    let after := handCards rest dealt.2
    ({ player with hand := player.hand ++ dealt.1 } :: after.1, after.2)

/-- The function `Durak.setup(ctx)`: shuffled deck, `numPlayers` fresh players, three cards
each, the trump `deal_cards(deck, 1)[0]`, three more cards each, and the round
set to `roundTemplate`. -/
def setup (ctx : Ctx) : GameState :=
  let deck := ctx.Shuffle createDeck
  let players := (List.range ctx.numPlayers).map playerTemplate
  let first := handCards players deck
  let pick := deal_cards first.2 1
  let trump := (pick.1[0]?).join
  let last := handCards first.1 pick.2
  { deck := last.2, players := last.1, trump := trump, currentRound := roundTemplate }

/-! ## Moves -/

/-- How a move call ends: `return G`, `return false`, falling off the end of
the function body (`undefined`), or a thrown `TypeError`. -/
inductive MoveResult
  | returnedG
  | returnedFalse
  | returnedUndefined
  | typeError
  deriving DecidableEq, Repr

/-- What a move call leaves behind: how it ended, the state object after the
call, and whether `ctx.events.endTurn()` was called. -/
structure Outcome where
  result : MoveResult
  G : GameState
  endTurn : Bool
  deriving DecidableEq, Repr

/-- Truthiness of an array in a condition: every array is truthy, the empty
one included. -/
def arrayTruthy {α : Type} (_ : List α) : Bool := true

/-- The move `moves.attack(G, ctx, card, playerId)`. The second test is
`if (attackers.filter(...))`, a condition on the filtered array itself. The
code after it maps every slot to `[item.attack.value, item.defend.value]`,
which throws on a slot without `defend`, and then returns `G`. -/
def attack (G : GameState) (card : Card) (playerId : Nat) : Outcome :=
  if G.currentRound.slots.length == 6 then
    { result := .returnedFalse, G := G, endTurn := false }
  else if arrayTruthy (G.currentRound.attackers.filter (fun item => item.id != some playerId)) then
    { result := .returnedFalse, G := G, endTurn := false }
  else if G.currentRound.slots.all (fun item => item.defend.isSome) then
    { result := .returnedG, G := G, endTurn := false }
  else
    { result := .typeError, G := G, endTurn := false }

/-- The move `moves.defend(G, ctx, slot, card)`: the body is `return G`. -/
def defend (G : GameState) (slot : Nat) (card : Card) : Outcome :=
  { result := .returnedG, G := G, endTurn := false }

/-- The move `moves.deflect(G, ctx, card)`: the body holds a comment only, so the call
returns `undefined`. -/
def deflect (G : GameState) (card : Card) : Outcome :=
  { result := .returnedUndefined, G := G, endTurn := false }

/-- The move `moves.acknowledge(G, ctx, playerId)`: push the id, end the turn when the
two arrays have the same length, return `G`. -/
def acknowledge (G : GameState) (playerId : Nat) : Outcome :=
  let G1 : GameState :=
    { G with currentRound :=
        { G.currentRound with acknowledged := G.currentRound.acknowledged ++ [playerId] } }
  { result := .returnedG
    G := G1
    endTurn := G1.currentRound.acknowledged.length == G1.currentRound.attackers.length }

/-- The `hand` property read off the result of `G.players.filter(...)`: the
result is an array, and an array has no `hand` property. -/
def filteredHand (_ : List Player) : Option (List (Option Card)) := none

/-- The `forEach` of `surrender`: `defender.hand.push(slot.attack)` and, when
`slot.defend` is truthy, `defender.hand.push(slot.defend)`. Pushing onto an
`undefined` hand throws. -/
def surrenderSlots : Option (List (Option Card)) → List Slot → Option (Option (List (Option Card)))
  | hand, [] => some hand
  | none, _ :: _ => none
  | some hand, slot :: rest =>
    surrenderSlots
      (some (hand ++ [some slot.attack] ++ (if slot.defend.isSome then [slot.defend] else [])))
      rest

/-- The move `moves.surrender(G, ctx)`. The pushes go to the `hand` of the filtered
array, never to a player of `G`, so `G` is the same object state in every
branch. -/
def surrender (G : GameState) : Outcome :=
  let defenderId := G.currentRound.defender.id
  let defender := G.players.filter (fun player => some player.id == defenderId)
  match surrenderSlots (filteredHand defender) G.currentRound.slots with
  | none => { result := .typeError, G := G, endTurn := false }
  | some _ => { result := .returnedG, G := G, endTurn := true }

/-- The hook `flow.onTurnEnd`: `G.currentRound = roundTemplate`. The template
is installed as the source writes it; the ids that `acknowledge` may have
pushed into the shared template object are not carried (see the note at the
head of the file). -/
def onTurnEnd (G : GameState) : GameState :=
  { G with currentRound := roundTemplate }

/-- A move request: the move's name with its arguments. -/
inductive Move
  | attack (card : Card) (playerId : Nat)
  | defend (slot : Nat) (card : Card)
  | deflect (card : Card)
  | acknowledge (playerId : Nat)
  | surrender
  deriving DecidableEq, Repr

/-- Dispatch of a move request to the function of that name in `moves`. -/
def applyMove (G : GameState) : Move → Outcome
  | .attack card playerId => attack G card playerId
  | .defend slot card => defend G slot card
  | .deflect card => deflect G card
  | .acknowledge playerId => acknowledge G playerId
  | .surrender => surrender G

/-- States reachable from `G0` by moves (each leaving the state object as the
call left it) and turn ends. -/
inductive Reachable (G0 : GameState) : GameState → Prop
  | start : Reachable G0 G0
  | move {G : GameState} (m : Move) : Reachable G0 G → Reachable G0 (applyMove G m).G
  | turnEnd {G : GameState} : Reachable G0 G → Reachable G0 (onTurnEnd G)

/-! ## Measures used to state the properties -/

/-- Cards lying in one slot, counted as `surrender` collects them: the attack
card, and the defend card when present. -/
def slotCards (slot : Slot) : Nat :=
  1 + (if slot.defend.isSome then 1 else 0)

def handCount (players : List Player) : Nat :=
  (players.map (fun p => p.hand.length)).sum

def beatenCount (players : List Player) : Nat :=
  (players.map (fun p => p.beaten.length)).sum

def slotCount (round : Round) : Nat :=
  (round.slots.map slotCards).sum

/-- Cards in the deck, the hands and the beaten piles. -/
def heldCount (G : GameState) : Nat :=
  G.deck.length + handCount G.players + beatenCount G.players

/-- The sum the conservation property speaks of: deck, hands, beaten piles and
battlefield slots. -/
def cardCount (G : GameState) : Nat :=
  heldCount G + slotCount G.currentRound

/-- The trump card, counted: 1 when `G.trump` is a card. -/
def trumpCount (G : GameState) : Nat :=
  G.trump.toList.length

/-- Rank of a card: the position of its value in `values`. -/
def rank (card : Card) : Nat :=
  values.indexOf card.value

/-- The rule of the Defend paragraph, as the specification words it: same suit
and strictly higher rank, or trump against non-trump, or both trump with the
higher rank. No function of the module computes it; it is used to describe
inputs only. -/
def spec_beats (trump card attackCard : Card) : Bool :=
  (card.suit == attackCard.suit && rank attackCard < rank card) ||
  (card.suit == trump.suit && attackCard.suit != trump.suit) ||
  (card.suit == trump.suit && attackCard.suit == trump.suit && rank attackCard < rank card)

/-! ## Concrete inputs -/

def card (value suit : String) : Card :=
  { value := value, suit := some suit }

/-- A context for `n` players whose shuffle leaves the deck as created. -/
def plainCtx (n : Nat) : Ctx :=
  { numPlayers := n, Shuffle := fun deck => deck }

/-- Two players, trump Diamonds, player 0 about to attack player 1 on an empty
battlefield. -/
def openingState : GameState :=
  { deck := []
    players :=
      [ { id := 0, hand := [some (card "6" "Spades"), some (card "6" "Hearts"),
                            some (card "7" "Diamonds")], beaten := [] },
        { id := 1, hand := [some (card "8" "Spades"), some (card "7" "Hearts"),
                            some (card "J" "Diamonds")], beaten := [] } ]
    trump := some (card "A" "Diamonds")
    currentRound :=
      { slots := []
        defender := { id := some 1 }
        attackers := [{ id := some 0 }]
        acknowledged := []
        done := false } }

/-- The same game after player 0 has laid the 6 of Spades: one open slot. -/
def attackedState : GameState :=
  { openingState with
    players :=
      [ { id := 0, hand := [some (card "6" "Hearts"), some (card "7" "Diamonds")], beaten := [] },
        { id := 1, hand := [some (card "8" "Spades"), some (card "7" "Hearts"),
                            some (card "J" "Diamonds")], beaten := [] } ]
    currentRound :=
      { openingState.currentRound with
        slots := [{ playerId := 0, attack := card "6" "Spades", defend := none }] } }

/-! ## Flow -/

/-- The property `G.cells` that `endGameIf` reads. No state of this module has
such a property, so the read gives `undefined`. -/
def cells (_ : GameState) : Option Unit := none

/-- The free identifiers of `endGameIf`. The module neither declares nor
imports `IsVictory` and `IsDraw`: `none` is an identifier bound nowhere (its
call throws a `ReferenceError`), `some f` a binding found in the surrounding
scope. -/
structure Globals where
  IsVictory : Option (Option Unit → Bool)
  IsDraw : Option (Option Unit → Bool)

/-- The scope of the module as the source file gives it: both identifiers
unbound. -/
def moduleGlobals : Globals :=
  { IsVictory := none, IsDraw := none }

/-- What a call of `endGameIf` gives: `{ winner: ctx.currentPlayer }`,
`{ draw: true }`, no return value (the game goes on), or a thrown
`ReferenceError`. -/
inductive EndGame
  | winner (currentPlayer : String)
  | draw
  | undefined
  | referenceError
  deriving DecidableEq, Repr

/-- The hook `flow.endGameIf(G, ctx)`: `IsVictory(G.cells)` first, then
`IsDraw(G.cells)`. -/
def endGameIf (env : Globals) (G : GameState) (currentPlayer : String) : EndGame :=
  match env.IsVictory with
  | none => .referenceError
  | some isVictory =>
    if isVictory (cells G) then .winner currentPlayer
    else
      match env.IsDraw with
      | none => .referenceError
      | some isDraw => if isDraw (cells G) then .draw else .undefined

/-- An entry of `flow.phases`. -/
structure Phase where
  allowedMoves : List String
  endPhaseIf : GameState → Bool
  next : Option String

/-- The entry `phases.attacking`. -/
def attacking : Phase :=
  { allowedMoves := ["attack"], endPhaseIf := fun _ => false, next := some "defending" }

/-- The entry `phases.defending`. -/
def defending : Phase :=
  { allowedMoves := ["attack", "defend", "deflect", "surrender"]
    endPhaseIf := fun _ => false
    next := none }

/-- The table `flow.phases`, keyed by phase name. -/
def phases : List (String × Phase) :=
  [("attacking", attacking), ("defending", defending)]

/-- The key of a move in `moves`, the name the phase tables list. -/
def moveName : Move → String
  | .attack _ _ => "attack"
  | .defend _ _ => "defend"
  | .deflect _ => "deflect"
  | .acknowledge _ => "acknowledge"
  | .surrender => "surrender"

/-- Modelled from the spec: the legality gate of the Turn Controller, which
dispatches a move only when it is legal in the current phase and otherwise
leaves the state unchanged. The module states the gate as the `allowedMoves`
list of each entry of `flow.phases`; the code that enforces the lists belongs
to the boardgame.io framework and is not part of the sources. In a phase that
`flow.phases` declares, a move passes when the phase lists its name; a phase
name without an entry has no list and restricts nothing. -/
def canMakeMove (phase : String) (m : Move) : Bool :=
  match phases.lookup phase with
  | some conf => conf.allowedMoves.contains (moveName m)
  | none => true

/-- A move request made while the flow is in the given phase: the move function
is called when the gate lets the move pass, and nothing is called otherwise. -/
def makeMove (phase : String) (G : GameState) (m : Move) : Option Outcome :=
  if canMakeMove phase m then some (applyMove G m) else none

/-- Every hand entry of every player, in player order. -/
def allHands (players : List Player) : List (Option Card) :=
  players.flatMap (fun p => p.hand)

/-- The hand of the player with the given id, when there is one. -/
def handOf (G : GameState) (id : Nat) : Option (List (Option Card)) :=
  (G.players.find? (fun p => p.id == id)).map (fun p => p.hand)

/-- The cards `surrender` is meant to collect: of every slot the attack card
and, when present, the defend card. -/
def battlefieldCards (round : Round) : List (Option Card) :=
  round.slots.flatMap (fun slot =>
    [some slot.attack] ++ (if slot.defend.isSome then [slot.defend] else []))

/-! ## More concrete inputs -/

/-- The state `attackedState` with eight cards left in the deck. -/
def midGameState : GameState :=
  { attackedState with
    deck := [card "6" "Clubs", card "7" "Clubs", card "8" "Clubs", card "9" "Clubs",
             card "10" "Clubs", card "J" "Clubs", card "Q" "Clubs", card "K" "Clubs"] }

/-- Three players, player 1 defending against the attackers 0 and 2; the one
slot is closed and attacker 0 has acknowledged already. -/
def twoAttackersState : GameState :=
  { deck := []
    players :=
      [ { id := 0, hand := [some (card "6" "Hearts")], beaten := [] },
        { id := 1, hand := [some (card "7" "Hearts")], beaten := [] },
        { id := 2, hand := [some (card "8" "Hearts")], beaten := [] } ]
    trump := some (card "A" "Diamonds")
    currentRound :=
      { slots := [{ playerId := 0, attack := card "6" "Spades"
                    defend := some (card "8" "Spades") }]
        defender := { id := some 1 }
        attackers := [{ id := some 0 }, { id := some 2 }]
        acknowledged := [0]
        done := false } }

/-- The deck is used up, player 0 is out of cards and player 1 holds two. -/
def finalState : GameState :=
  { deck := []
    players :=
      [ { id := 0, hand := [], beaten := [] },
        { id := 1, hand := [some (card "8" "Spades"), some (card "7" "Hearts")], beaten := [] } ]
    trump := some (card "A" "Diamonds")
    currentRound :=
      { slots := []
        defender := { id := some 1 }
        attackers := [{ id := some 0 }]
        acknowledged := []
        done := false } }

end Durak

namespace Durak


theorem deal_cards_loop_eq (k : Nat) (deck : List Card) (dealt : List (Option Card)) :
    deal_cards_loop k deck dealt =
      (dealt ++ (deck.take k).map some ++ List.replicate (k - deck.length) none, deck.drop k) := by
  induction k generalizing deck dealt with
  | zero => simp [deal_cards_loop]
  | succ k ih =>
    cases deck with
    | nil => simp [deal_cards_loop, ih, List.replicate_succ]
    | cons a t => simp [deal_cards_loop, ih]

theorem deal_cards_eq (deck : List Card) (count : Nat) :
    deal_cards deck count =
      ((deck.take count).map some ++ List.replicate (count - deck.length) none,
        deck.drop count) := by
  simp [deal_cards, deal_cards_loop_eq]

theorem deal_cards_three (deck : List Card) :
    deal_cards deck 3 = ([deck[0]?, deck[1]?, deck[2]?], deck.drop 3) := by
  rcases deck with _ | ⟨a, _ | ⟨b, _ | ⟨c, t⟩⟩⟩ <;> simp [deal_cards, deal_cards_loop]

theorem deal_cards_one (deck : List Card) :
    deal_cards deck 1 = ([deck[0]?], deck.drop 1) := by
  rcases deck with _ | ⟨a, t⟩ <;> simp [deal_cards, deal_cards_loop]

theorem handCards_length (players : List Player) (deck : List Card) :
    (handCards players deck).1.length = players.length := by
  induction players generalizing deck with
  | nil => rfl
  | cons p ps ih => simp [handCards, ih]

theorem handCards_deck (players : List Player) (deck : List Card) :
    (handCards players deck).2 = deck.drop (3 * players.length) := by
  induction players generalizing deck with
  | nil => rfl
  | cons p ps ih =>
    simp only [handCards, ih, deal_cards_three, List.drop_drop, List.length_cons]
    congr 1
    omega

theorem handCards_getElem? (players : List Player) (deck : List Card) (i : Nat) :
    (handCards players deck).1[i]? =
      (players[i]?).map (fun p =>
        { p with hand := p.hand ++ [deck[3 * i]?, deck[3 * i + 1]?, deck[3 * i + 2]?] }) := by
  induction players generalizing deck i with
  | nil => simp [handCards]
  | cons p ps ih =>
    cases i with
    | zero => simp [handCards, deal_cards_three]
    | succ i =>
      simp only [handCards, deal_cards_three, List.getElem?_cons_succ, ih, List.getElem?_drop]
      congr 1
      funext q
      have e0 : 3 + 3 * i = 3 * (i + 1) := by omega
      have e1 : 3 + (3 * i + 1) = 3 * (i + 1) + 1 := by omega
      have e2 : 3 + (3 * i + 2) = 3 * (i + 1) + 2 := by omega
      rw [e0, e1, e2]


theorem setup_players_getElem? (ctx : Ctx) (d : List Card) (hs : ctx.Shuffle createDeck = d)
    (i : Nat) (hi : i < ctx.numPlayers) :
    (setup ctx).players[i]? = some
      { id := i
        hand := [d[3 * i]?, d[3 * i + 1]?, d[3 * i + 2]?,
                 d[3 * ctx.numPlayers + 1 + 3 * i]?, d[3 * ctx.numPlayers + 2 + 3 * i]?,
                 d[3 * ctx.numPlayers + 3 + 3 * i]?]
        beaten := [] } := by
  have e1 : 3 * ctx.numPlayers + (1 + (3 * i + 1)) = 3 * ctx.numPlayers + (2 + 3 * i) := by omega
  have e2 : 3 * ctx.numPlayers + (1 + (3 * i + 2)) = 3 * ctx.numPlayers + (3 + 3 * i) := by omega
  simp [setup, hs, handCards_getElem?, handCards_deck, deal_cards_one, List.getElem?_drop,
    List.getElem?_range hi, playerTemplate, Nat.add_assoc, e1, e2]

theorem setup_trump (ctx : Ctx) (d : List Card) (hs : ctx.Shuffle createDeck = d) :
    (setup ctx).trump = d[3 * ctx.numPlayers]? := by
  simp [setup, hs, handCards_deck, deal_cards_one, List.getElem?_drop]

theorem setup_deck (ctx : Ctx) (d : List Card) (hs : ctx.Shuffle createDeck = d) :
    (setup ctx).deck = d.drop (6 * ctx.numPlayers + 1) := by
  simp only [setup, hs, handCards_deck, deal_cards_one, List.drop_drop, handCards_length,
    List.length_map, List.length_range]
  congr 1
  omega

theorem setup_players_length (ctx : Ctx) : (setup ctx).players.length = ctx.numPlayers := by
  simp [setup, handCards_length]


theorem deal_cards_all_some_iff (deck : List Card) (count : Nat) :
    (∀ c ∈ (deal_cards deck count).1, c.isSome = true) ↔ count ≤ deck.length := by
  rw [deal_cards_eq]
  constructor
  · intro h
    by_contra hlt
    have hpos : 0 < count - deck.length := by omega
    have hmem : (none : Option Card) ∈
        (deck.take count).map some ++ List.replicate (count - deck.length) none := by
      apply List.mem_append_right
      exact List.mem_replicate.mpr ⟨by omega, rfl⟩
    simpa using h none hmem
  · intro h c hc
    have h0 : count - deck.length = 0 := by omega
    simp only [h0, List.replicate_zero, List.append_nil, List.mem_map] at hc
    obtain ⟨a, _, rfl⟩ := hc
    rfl

theorem handCount_handCards (players : List Player) (deck : List Card) :
    handCount (handCards players deck).1 = handCount players + 3 * players.length := by
  induction players generalizing deck with
  | nil => rfl
  | cons p ps ih =>
    have h := ih (deck.drop 3)
    simp only [handCount] at h ⊢
    simp only [handCards, deal_cards_three, List.map_cons, List.sum_cons, List.length_append,
      List.length_cons, List.length_nil, h]
    omega

theorem beatenCount_handCards (players : List Player) (deck : List Card) :
    beatenCount (handCards players deck).1 = beatenCount players := by
  induction players generalizing deck with
  | nil => rfl
  | cons p ps ih =>
    have h := ih (deal_cards deck 3).2
    simp only [beatenCount] at h ⊢
    simp only [handCards, List.map_cons, List.sum_cons, h]

theorem handCount_fresh (n : Nat) : handCount ((List.range n).map playerTemplate) = 0 := by
  simp [handCount, playerTemplate, Function.comp_def]

theorem beatenCount_fresh (n : Nat) : beatenCount ((List.range n).map playerTemplate) = 0 := by
  simp [beatenCount, playerTemplate, Function.comp_def]

theorem setup_handCount (ctx : Ctx) : handCount (setup ctx).players = 6 * ctx.numPlayers := by
  simp only [setup, handCount_handCards, handCount_fresh, handCards_length, List.length_map,
    List.length_range]
  omega

theorem setup_beatenCount (ctx : Ctx) : beatenCount (setup ctx).players = 0 := by
  simp only [setup, beatenCount_handCards, beatenCount_fresh]

theorem attack_rejects (G : GameState) (c : Card) (playerId : Nat) :
    attack G c playerId = { result := .returnedFalse, G := G, endTurn := false } := by
  unfold attack arrayTruthy
  split <;> simp

theorem surrender_state (G : GameState) : (surrender G).G = G := by
  simp only [surrender]
  cases surrenderSlots (filteredHand
    (G.players.filter (fun player => some player.id == G.currentRound.defender.id)))
    G.currentRound.slots <;> rfl

theorem applyMove_frame (G : GameState) (m : Move) :
    (applyMove G m).G.deck = G.deck ∧ (applyMove G m).G.players = G.players ∧
      (applyMove G m).G.trump = G.trump := by
  cases m with
  | attack c playerId => simp [applyMove, attack_rejects]
  | defend slot c => simp [applyMove, defend]
  | deflect c => simp [applyMove, deflect]
  | acknowledge playerId => simp [applyMove, acknowledge]
  | surrender => simp [applyMove, surrender_state]

theorem reachable_frame {G0 G : GameState} (h : Reachable G0 G) :
    G.deck = G0.deck ∧ G.players = G0.players ∧ G.trump = G0.trump := by
  induction h with
  | start => exact ⟨rfl, rfl, rfl⟩
  | move m _ ih =>
    obtain ⟨h1, h2, h3⟩ := applyMove_frame _ m
    exact ⟨h1.trans ih.1, h2.trans ih.2.1, h3.trans ih.2.2⟩
  | turnEnd _ ih => exact ih

theorem applyMove_slots (G : GameState) (m : Move) :
    (applyMove G m).G.currentRound.slots = G.currentRound.slots := by
  cases m with
  | attack c playerId => simp [applyMove, attack_rejects]
  | defend slot c => simp [applyMove, defend]
  | deflect c => simp [applyMove, deflect]
  | acknowledge playerId => simp [applyMove, acknowledge]
  | surrender => simp [applyMove, surrender_state]

theorem reachable_slots {G0 G : GameState} (h : Reachable G0 G) :
    G.currentRound.slots = G0.currentRound.slots ∨
      G.currentRound.slots = roundTemplate.slots := by
  induction h with
  | start => exact Or.inl rfl
  | move m _ ih => rw [applyMove_slots]; exact ih
  | turnEnd _ _ => exact Or.inr rfl

theorem deal_cards_three_of_le (deck : List Card) (h : 3 ≤ deck.length) :
    deal_cards deck 3 = ((deck.take 3).map some, deck.drop 3) := by
  have h0 : 3 - deck.length = 0 := by omega
  simp [deal_cards_eq, h0]

theorem allHands_cons (p : Player) (ps : List Player) :
    allHands (p :: ps) = p.hand ++ allHands ps := by
  simp [allHands]

theorem allHands_fresh (n : Nat) : allHands ((List.range n).map playerTemplate) = [] := by
  simp [allHands, playerTemplate, List.flatMap]

theorem allHands_handCards (players : List Player) (deck : List Card)
    (h : 3 * players.length ≤ deck.length) :
    (allHands (handCards players deck).1).Perm
      (allHands players ++ (deck.take (3 * players.length)).map some) := by
  induction players generalizing deck with
  | nil => simp [handCards]
  | cons p ps ih =>
    have hlen : 3 * ps.length ≤ (deck.drop 3).length := by
      simp only [List.length_cons, List.length_drop] at h ⊢
      omega
    have h3 : 3 ≤ deck.length := by
      simp only [List.length_cons] at h
      omega
    have hsplit : deck.take (3 * (p :: ps).length) =
        deck.take 3 ++ (deck.drop 3).take (3 * ps.length) := by
      rw [← List.take_add]
      congr 1
      simp only [List.length_cons]
      omega
    have ih1 := ih (deck.drop 3) hlen
    simp only [handCards, deal_cards_three_of_le deck h3, allHands_cons, hsplit, List.map_append]
    rw [← Multiset.coe_eq_coe] at ih1 ⊢
    simp only [← Multiset.coe_add] at ih1 ⊢
    rw [ih1]
    abel

theorem setup_all_cards (ctx : Ctx) (d : List Card) (hs : ctx.Shuffle createDeck = d)
    (hd : d.length = 36) (h5 : ctx.numPlayers ≤ 5) :
    (allHands (setup ctx).players ++ [(setup ctx).trump] ++ (setup ctx).deck.map some).Perm
      (d.map some) := by
  have hn : 3 * ctx.numPlayers < d.length := by omega
  have hfirst := allHands_handCards ((List.range ctx.numPlayers).map playerTemplate) d
    (by simp only [List.length_map, List.length_range]; omega)
  have hlast := allHands_handCards (handCards ((List.range ctx.numPlayers).map playerTemplate) d).1
    (d.drop (3 * ctx.numPlayers + 1))
    (by simp only [handCards_length, List.length_map, List.length_range, List.length_drop]; omega)
  simp only [handCards_length, List.length_map, List.length_range, allHands_fresh,
    List.nil_append] at hfirst hlast
  have hplayers : (setup ctx).players =
      (handCards (handCards ((List.range ctx.numPlayers).map playerTemplate) d).1
        (d.drop (3 * ctx.numPlayers + 1))).1 := by
    simp [setup, hs, handCards_deck, deal_cards_one]
  have htrump : (setup ctx).trump = some (d[3 * ctx.numPlayers]) := by
    rw [setup_trump ctx d hs, List.getElem?_eq_getElem hn]
  have hdeck : (setup ctx).deck =
      (d.drop (3 * ctx.numPlayers + 1)).drop (3 * ctx.numPlayers) := by
    rw [setup_deck ctx d hs, List.drop_drop]
    congr 1
    omega
  have hsplit : d = d.take (3 * ctx.numPlayers) ++ (d[3 * ctx.numPlayers] ::
      ((d.drop (3 * ctx.numPlayers + 1)).take (3 * ctx.numPlayers) ++
        (d.drop (3 * ctx.numPlayers + 1)).drop (3 * ctx.numPlayers))) := by
    rw [List.take_append_drop, ← List.drop_eq_getElem_cons hn, List.take_append_drop]
  rw [hplayers, htrump, hdeck]
  conv_rhs => rw [hsplit]
  simp only [List.map_append, List.map_cons]
  rw [← Multiset.coe_eq_coe] at hfirst hlast ⊢
  simp only [← Multiset.coe_add, ← Multiset.cons_coe, ← Multiset.singleton_add] at hfirst hlast ⊢
  rw [hlast, hfirst]
  abel

/-! ## Properties -/

/-- C1: `createDeck` returns exactly 36 cards in suit-major, value-minor order
(the card at position `9*s+v` has suit `s` and value `v`), and no card occurs
twice. -/
theorem createDeck_layout :
    createDeck.length = 36 ∧
    (∀ s : Fin 4, ∀ v : Fin 9,
      createDeck[9 * s.val + v.val]? =
        some { value := values[v.val]!, suit := some (suits[s.val]!) }) ∧
    createDeck.Nodup := by
  refine ⟨by decide, by decide, by decide⟩

/-- C2: for 2 to 5 players and a shuffled deck `d` of 36 cards, `setup` gives
player `i` (ids `0..n-1` in order) the six cards `d[3i], d[3i+1], d[3i+2],
d[3n+1+3i], d[3n+2+3i], d[3n+3+3i]`, all of them inside the deck, an empty
beaten pile, the trump `d[3n]`, and the deck `d` from position `6n+1` on,
which is `35 - 6n` cards. -/
theorem setup_deals (ctx : Ctx) (d : List Card) (hs : ctx.Shuffle createDeck = d)
    (hd : d.length = 36) (h2 : 2 ≤ ctx.numPlayers) (h5 : ctx.numPlayers ≤ 5) :
    (setup ctx).players.length = ctx.numPlayers ∧
    (∀ i, i < ctx.numPlayers →
      3 * ctx.numPlayers + 3 + 3 * i < d.length ∧
      (setup ctx).players[i]? = some
        { id := i
          hand := [d[3 * i]?, d[3 * i + 1]?, d[3 * i + 2]?,
                   d[3 * ctx.numPlayers + 1 + 3 * i]?, d[3 * ctx.numPlayers + 2 + 3 * i]?,
                   d[3 * ctx.numPlayers + 3 + 3 * i]?]
          beaten := [] }) ∧
    3 * ctx.numPlayers < d.length ∧
    (setup ctx).trump = d[3 * ctx.numPlayers]? ∧
    (setup ctx).deck = d.drop (6 * ctx.numPlayers + 1) ∧
    (setup ctx).deck.length = 35 - 6 * ctx.numPlayers := by
  refine ⟨setup_players_length ctx, ?_, by omega, setup_trump ctx d hs, setup_deck ctx d hs, ?_⟩
  · intro i hi
    exact ⟨by omega, setup_players_getElem? ctx d hs i hi⟩
  · rw [setup_deck ctx d hs, List.length_drop]
    omega

/-- Witness of C2: two players, the deck left as created. -/
theorem setup_deals_witness :
    (setup (plainCtx 2)).players =
      [ { id := 0
          hand := [some (card "6" "Spades"), some (card "7" "Spades"), some (card "8" "Spades"),
                   some (card "K" "Spades"), some (card "A" "Spades"), some (card "6" "Hearts")]
          beaten := [] },
        { id := 1
          hand := [some (card "9" "Spades"), some (card "10" "Spades"), some (card "J" "Spades"),
                   some (card "7" "Hearts"), some (card "8" "Hearts"), some (card "9" "Hearts")]
          beaten := [] } ] ∧
    (setup (plainCtx 2)).trump = some (card "Q" "Spades") ∧
    (setup (plainCtx 2)).deck.length = 35 - 6 * 2 := by
  have h := setup_deals (plainCtx 2) createDeck rfl (by decide) (by decide) (by decide)
  refine ⟨by decide, by decide, h.2.2.2.2.2⟩

/-- C3: when `n` is at most the number of cards in the deck, `deal_cards`
returns the first `n` cards in their order and leaves the deck without them;
the dealt cards followed by the remaining deck are the original deck. -/
theorem deal_cards_takes_front (deck : List Card) (n : Nat) (h : n ≤ deck.length) :
    (deal_cards deck n).1 = (deck.take n).map some ∧
    (deal_cards deck n).2 = deck.drop n ∧
    (deal_cards deck n).1 ++ (deal_cards deck n).2.map some = deck.map some := by
  have h0 : n - deck.length = 0 := by omega
  rw [deal_cards_eq]
  simp only [h0, List.replicate_zero, List.append_nil, true_and]
  rw [← List.map_append, List.take_append_drop]

/-- Witness of C3: two cards dealt from a deck of three. -/
theorem deal_cards_takes_front_witness :
    (deal_cards [card "6" "Spades", card "7" "Spades", card "8" "Spades"] 2).1 =
        ([card "6" "Spades", card "7" "Spades", card "8" "Spades"].take 2).map some ∧
    (deal_cards [card "6" "Spades", card "7" "Spades", card "8" "Spades"] 2).2 =
        [card "6" "Spades", card "7" "Spades", card "8" "Spades"].drop 2 ∧
    (deal_cards [card "6" "Spades", card "7" "Spades", card "8" "Spades"] 2).1 ++
        (deal_cards [card "6" "Spades", card "7" "Spades", card "8" "Spades"] 2).2.map some =
      [card "6" "Spades", card "7" "Spades", card "8" "Spades"].map some :=
  deal_cards_takes_front [card "6" "Spades", card "7" "Spades", card "8" "Spades"] 2 (by decide)

/-- C4, as stated, fails: asked for two cards from a deck of one, `deal_cards`
returns the array `[6 of Spades, undefined]` and leaves the deck empty. -/
theorem deal_cards_short_deck_returns :
    [card "6" "Spades"].length < 2 ∧
    deal_cards [card "6" "Spades"] 2 = ([some (card "6" "Spades"), none], []) := by
  decide

/-- C4, amended: when `n` exceeds the number of cards in the deck,
`deal_cards` returns an array of `n` entries, the remaining cards in order
followed by `n - length` entries `undefined`, and leaves the deck empty. -/
theorem deal_cards_overdraw (deck : List Card) (n : Nat) (h : deck.length < n) :
    (deal_cards deck n).1 = deck.map some ++ List.replicate (n - deck.length) none ∧
    (deal_cards deck n).1.length = n ∧
    (deal_cards deck n).2 = [] := by
  rw [deal_cards_eq]
  have ht : deck.take n = deck := List.take_of_length_le (by omega)
  have hdr : deck.drop n = [] := List.drop_of_length_le (by omega)
  refine ⟨by simp [ht], ?_, by simp [hdr]⟩
  simp only [ht, List.length_append, List.length_map, List.length_replicate]
  omega

/-- Witness of C4, amended: three cards asked of a deck of one. -/
theorem deal_cards_overdraw_witness :
    (deal_cards [card "6" "Spades"] 3).1 =
        [card "6" "Spades"].map some ++ List.replicate (3 - [card "6" "Spades"].length) none ∧
    (deal_cards [card "6" "Spades"] 3).1.length = 3 ∧
    (deal_cards [card "6" "Spades"] 3).2 = [] :=
  deal_cards_overdraw [card "6" "Spades"] 3 (by decide)

/-- C5, as stated, fails for six players: the deck of 36 holds one card too
few for 6 * 6 hand cards and the trump, and the last entry of the last hand
is `undefined`. -/
theorem setup_six_players_undefined :
    ((plainCtx 6).Shuffle createDeck).length = 36 ∧
    ((setup (plainCtx 6)).players[5]?).map (fun p => p.hand) =
      some [some (card "Q" "Hearts"), some (card "K" "Hearts"), some (card "A" "Hearts"),
            some (card "K" "Clubs"), some (card "A" "Clubs"), none] := by
  decide

/-- C5, amended to 2 to 5 players: on a shuffled deck of 36 cards every hand
has six entries, each a real card, the trump is a real card, and the deck has
lost exactly the `6n + 1` cards asked of it. An entry is `undefined` exactly
when `deal_cards` is asked for more than remains
(`deal_cards_all_some_iff`). -/
theorem setup_never_overdraws (ctx : Ctx) (d : List Card) (hs : ctx.Shuffle createDeck = d)
    (hd : d.length = 36) (h2 : 2 ≤ ctx.numPlayers) (h5 : ctx.numPlayers ≤ 5) :
    (∀ p ∈ (setup ctx).players, p.hand.length = 6 ∧ ∀ c ∈ p.hand, c.isSome = true) ∧
    (setup ctx).trump.isSome = true ∧
    (setup ctx).deck.length + (6 * ctx.numPlayers + 1) = 36 := by
  refine ⟨?_, ?_, ?_⟩
  · intro p hp
    obtain ⟨i, hi, hpi⟩ := List.getElem_of_mem hp
    have hin : i < ctx.numPlayers := by simpa [setup_players_length] using hi
    have hq := setup_players_getElem? ctx d hs i hin
    rw [List.getElem?_eq_getElem hi, hpi] at hq
    have hp' := Option.some.inj hq
    subst hp'
    refine ⟨rfl, ?_⟩
    intro c hc
    simp only [List.mem_cons, List.mem_singleton, List.not_mem_nil, or_false] at hc
    have key : ∀ k, k < 36 → (d[k]?).isSome = true := by
      intro k hk
      rw [List.getElem?_eq_getElem (by omega)]
      rfl
    rcases hc with h | h | h | h | h | h <;> (rw [h]; apply key; omega)
  · rw [setup_trump ctx d hs, List.getElem?_eq_getElem (by omega)]
    rfl
  · rw [setup_deck ctx d hs, List.length_drop]
    omega

/-- Witness of C5, amended: three players, the deck left as created. -/
theorem setup_never_overdraws_witness :
    (∀ p ∈ (setup (plainCtx 3)).players, p.hand.length = 6 ∧ ∀ c ∈ p.hand, c.isSome = true) ∧
    (setup (plainCtx 3)).trump.isSome = true ∧
    (setup (plainCtx 3)).deck.length + (6 * (plainCtx 3).numPlayers + 1) = 36 :=
  setup_never_overdraws (plainCtx 3) createDeck rfl (by decide) (by decide) (by decide)


/-- C6, as stated, fails in the state `setup` returns (reached by the empty
sequence of moves): deck, hands, beaten piles and slots sum to 37, since the
round starts as `roundTemplate` with two placeholder cards in its slot, and
deck, hands and beaten piles alone hold 35, the trump being taken out of the
deck. -/
theorem setup_cardCount_not_36 :
    Reachable (setup (plainCtx 2)) (setup (plainCtx 2)) ∧
    cardCount (setup (plainCtx 2)) = 37 ∧
    heldCount (setup (plainCtx 2)) = 35 :=
  ⟨Reachable.start, by decide, by decide⟩

/-- C6, amended: in every state reachable from `setup` (2 to 5 players, a
shuffled deck of 36 cards) by moves and turn ends, the cards in the deck, the
hands and the beaten piles together with the trump card number exactly 36. -/
theorem card_conservation_with_trump (ctx : Ctx) (d : List Card)
    (hs : ctx.Shuffle createDeck = d) (hd : d.length = 36)
    (h2 : 2 ≤ ctx.numPlayers) (h5 : ctx.numPlayers ≤ 5)
    (G : GameState) (hr : Reachable (setup ctx) G) :
    heldCount G + trumpCount G = 36 := by
  obtain ⟨h1, hp, h3⟩ := reachable_frame hr
  have ht : trumpCount G = 1 := by
    simp only [trumpCount, h3, setup_trump ctx d hs]
    rw [List.getElem?_eq_getElem (by omega)]
    rfl
  have hl : G.deck.length = 35 - 6 * ctx.numPlayers := by
    rw [h1, setup_deck ctx d hs, List.length_drop]
    omega
  simp only [heldCount, hp, setup_handCount, setup_beatenCount, hl, ht]
  omega

/-- Witness of C6, amended: two players, the deck left as created, after an
acknowledge by player 0 and a turn end. -/
theorem card_conservation_with_trump_witness :
    heldCount (onTurnEnd (applyMove (setup (plainCtx 2)) (Move.acknowledge 0)).G) +
      trumpCount (onTurnEnd (applyMove (setup (plainCtx 2)) (Move.acknowledge 0)).G) = 36 :=
  card_conservation_with_trump (plainCtx 2) createDeck rfl (by decide) (by decide) (by decide)
    _ (Reachable.turnEnd (Reachable.move (Move.acknowledge 0) Reachable.start))

/-- C7: a move that does not return `G` (it returns `false`, returns nothing,
or throws) leaves the state object as it was before the call. -/
theorem rejected_move_keeps_state (G : GameState) (m : Move)
    (h : (applyMove G m).result ≠ MoveResult.returnedG) :
    (applyMove G m).G = G := by
  cases m with
  | attack c playerId => simp [applyMove, attack_rejects]
  | defend slot c => simp [applyMove, defend]
  | deflect c => simp [applyMove, deflect]
  | acknowledge playerId => simp [applyMove, acknowledge] at h
  | surrender => simp [applyMove, surrender_state]

/-- Witness of C7: the attack of player 0 with the 6 of Spades in
`openingState` returns `false` and leaves the state as it was. -/
theorem rejected_move_keeps_state_witness :
    (applyMove openingState (Move.attack (card "6" "Spades") 0)).result =
        MoveResult.returnedFalse ∧
    (applyMove openingState (Move.attack (card "6" "Spades") 0)).G = openingState :=
  ⟨by decide,
    rejected_move_keeps_state openingState (Move.attack (card "6" "Spades") 0) (by decide)⟩

/-- C8 at a failing input: in `openingState` player 0 is the attacker, holds
the 6 of Spades and the battlefield is empty, yet `attack` returns `false`
and opens no slot: the attacker test is a condition on the filtered array,
which is truthy whatever it holds. -/
theorem attack_opening_rejected :
    ({ id := some 0 } : PlayerRef) ∈ openingState.currentRound.attackers ∧
    (∃ p ∈ openingState.players, p.id = 0 ∧ some (card "6" "Spades") ∈ p.hand) ∧
    openingState.currentRound.slots = [] ∧
    attack openingState (card "6" "Spades") 0 =
      { result := MoveResult.returnedFalse, G := openingState, endTurn := false } := by
  decide

/-- C9 at a failing input: with trump Diamonds the 7 of Hearts does not beat
the 6 of Spades lying in the open slot 0 of `attackedState`, yet `defend`
returns `G`: the move is accepted. -/
theorem defend_accepts_losing_card :
    (attackedState.currentRound.slots[0]?).map (fun s => (s.attack, s.defend)) =
      some (card "6" "Spades", none) ∧
    attackedState.trump = some (card "A" "Diamonds") ∧
    spec_beats (card "A" "Diamonds") (card "7" "Hearts") (card "6" "Spades") = false ∧
    defend attackedState 0 (card "7" "Hearts") =
      { result := MoveResult.returnedG, G := attackedState, endTurn := false } := by
  decide

/-- C10 at a failing input: with trump Diamonds the defender (player 1) plays
the J of Diamonds, which beats the 6 of Spades in the open slot 0 of
`attackedState`; after `defend` the slot still has no defend card and the
card is still in the defender's hand. -/
theorem defend_leaves_slot_open :
    spec_beats (card "A" "Diamonds") (card "J" "Diamonds") (card "6" "Spades") = true ∧
    attackedState.currentRound.defender.id = some 1 ∧
    (defend attackedState 0 (card "J" "Diamonds")).result = MoveResult.returnedG ∧
    ((defend attackedState 0 (card "J" "Diamonds")).G.currentRound.slots[0]?).map
      (fun s => s.defend) = some none ∧
    (∃ p ∈ (defend attackedState 0 (card "J" "Diamonds")).G.players,
      p.id = 1 ∧ some (card "J" "Diamonds") ∈ p.hand) := by
  decide

/-- C11 at a failing input: in `attackedState` the defender is player 1 and
one card, the 6 of Spades, lies on the battlefield. `surrender` throws a
`TypeError` at the first push (the filter result is an array and has no
`hand`), and the defender's hand is not extended by the battlefield card. -/
theorem surrender_attacked_throws :
    attackedState.currentRound.defender.id = some 1 ∧
    handOf attackedState 1 =
      some [some (card "8" "Spades"), some (card "7" "Hearts"), some (card "J" "Diamonds")] ∧
    battlefieldCards attackedState.currentRound = [some (card "6" "Spades")] ∧
    surrender attackedState =
      { result := MoveResult.typeError, G := attackedState, endTurn := false } ∧
    handOf (surrender attackedState).G 1 ≠
      (handOf attackedState 1).map
        (fun hand => hand ++ battlefieldCards attackedState.currentRound) := by
  decide

/-- C12 at a failing input: in `attackedState` slot 0 is open and player 1 is
not an attacker, yet `acknowledge` returns `G` with the id recorded, both for
the attacker 0 and for player 1. -/
theorem acknowledge_accepted_on_open_slot :
    attackedState.currentRound.slots.map (fun s => s.defend) = [none] ∧
    attackedState.currentRound.attackers = [{ id := some 0 }] ∧
    (acknowledge attackedState 0).result = MoveResult.returnedG ∧
    (acknowledge attackedState 0).G.currentRound.acknowledged = [0] ∧
    (acknowledge attackedState 1).result = MoveResult.returnedG ∧
    (acknowledge attackedState 1).G.currentRound.acknowledged = [1] := by
  decide

/-- C13 at a failing input: in `twoAttackersState` the attackers are 0 and 2
and 0 has acknowledged. A second `acknowledge` by 0 makes the acknowledged
array `[0, 0]`, as long as the attackers array, and the turn is ended although
attacker 2 has not acknowledged. -/
theorem acknowledge_twice_ends_turn :
    twoAttackersState.currentRound.attackers = [{ id := some 0 }, { id := some 2 }] ∧
    twoAttackersState.currentRound.acknowledged = [0] ∧
    (acknowledge twoAttackersState 0).G.currentRound.acknowledged = [0, 0] ∧
    2 ∉ (acknowledge twoAttackersState 0).G.currentRound.acknowledged ∧
    (acknowledge twoAttackersState 0).endTurn = true := by
  decide

/-- C14 at a failing input: after `onTurnEnd` the round of `openingState` holds
the sample slot of `roundTemplate` (a 2 beaten by a K); so does the round of
any state after `onTurnEnd`, and the round of the state `setup` returns,
whatever the player count and the shuffle. -/
theorem onTurnEnd_round_has_slot :
    (onTurnEnd openingState).currentRound.slots =
      [{ playerId := 0, attack := { value := "2", suit := none }
         defend := some { value := "K", suit := none } }] ∧
    (∀ G : GameState, (onTurnEnd G).currentRound.slots.length = 1) ∧
    (setup (plainCtx 2)).currentRound.slots =
      [{ playerId := 0, attack := { value := "2", suit := none }
         defend := some { value := "K", suit := none } }] ∧
    (∀ ctx : Ctx, (setup ctx).currentRound.slots.length = 1) :=
  ⟨by decide, fun _ => rfl, by decide, fun _ => rfl⟩

/-- C15 at a failing input: in `midGameState` the deck holds eight cards, the
attacker (player 0) two and the defender (player 1) three. `onTurnEnd` leaves
the deck and every hand as they were: nobody draws. -/
theorem onTurnEnd_refills_nothing :
    midGameState.deck.length = 8 ∧
    midGameState.currentRound.attackers = [{ id := some 0 }] ∧
    midGameState.currentRound.defender = { id := some 1 } ∧
    (handOf midGameState 0).map List.length = some 2 ∧
    (handOf midGameState 1).map List.length = some 3 ∧
    (onTurnEnd midGameState).deck = midGameState.deck ∧
    (onTurnEnd midGameState).players = midGameState.players ∧
    (handOf (onTurnEnd midGameState) 0).map List.length = some 2 := by
  decide

/-- C16 at a failing input: in `finalState` the deck is empty and player 1
alone holds cards, yet `endGameIf` ends in a `ReferenceError`, `IsVictory`
being bound nowhere in the module. Whatever the two identifiers are bound to,
the answer does not depend on the state: it is computed from `G.cells`, which
no state has. -/
theorem endGameIf_ignores_state :
    finalState.deck = [] ∧
    (finalState.players.filter (fun p => !p.hand.isEmpty)).map (fun p => p.id) = [1] ∧
    endGameIf moduleGlobals finalState "0" = EndGame.referenceError ∧
    (∀ (env : Globals) (G1 G2 : GameState) (currentPlayer : String),
      endGameIf env G1 currentPlayer = endGameIf env G2 currentPlayer) :=
  ⟨by decide, by decide, by decide, fun _ _ _ _ => rfl⟩

/-- C17 at a failing input: `surrender` in the state `setup` returns (two
players, the deck left as created) throws a `TypeError`: the round is
`roundTemplate` with its one slot, and the defender's hand is read off the
array that `filter` returns. -/
theorem surrender_after_setup_throws :
    Reachable (setup (plainCtx 2)) (setup (plainCtx 2)) ∧
    (applyMove (setup (plainCtx 2)) Move.surrender).result = MoveResult.typeError :=
  ⟨Reachable.start, by decide⟩

/-- C18: in every state reachable from `setup` by moves and turn ends the
battlefield has at most 6 slots. -/
theorem slots_at_most_six (ctx : Ctx) (G : GameState) (hr : Reachable (setup ctx) G) :
    G.currentRound.slots.length ≤ 6 := by
  have h0 : (setup ctx).currentRound.slots = roundTemplate.slots := rfl
  have h1 : G.currentRound.slots = roundTemplate.slots := by
    rcases reachable_slots hr with h | h
    · exact h.trans h0
    · exact h
  rw [h1]
  decide

/-- Witness of C18: two players, after an attack by player 0, an acknowledge
by player 1 and a turn end. -/
theorem slots_at_most_six_witness :
    (onTurnEnd (applyMove (applyMove (setup (plainCtx 2))
      (Move.attack (card "6" "Spades") 0)).G (Move.acknowledge 1)).G).currentRound.slots.length
        ≤ 6 :=
  slots_at_most_six (plainCtx 2) _
    (Reachable.turnEnd (Reachable.move (Move.acknowledge 1)
      (Reachable.move (Move.attack (card "6" "Spades") 0) Reachable.start)))

/-- C19: for 2 to 5 players and a shuffle that returns a permutation `d` of
the created deck, all hands of the state `setup` returns, followed by the
trump card, followed by the remaining deck, are a permutation of
`createDeck`; the list has no duplicate, so no card is held in two places, and
the trump card is in no hand and not in the deck. -/
theorem setup_partitions (ctx : Ctx) (d : List Card) (hs : ctx.Shuffle createDeck = d)
    (hp : d.Perm createDeck) (h2 : 2 ≤ ctx.numPlayers) (h5 : ctx.numPlayers ≤ 5) :
    (allHands (setup ctx).players ++ [(setup ctx).trump] ++ (setup ctx).deck.map some).Perm
      (createDeck.map some) ∧
    (allHands (setup ctx).players ++ [(setup ctx).trump] ++ (setup ctx).deck.map some).Nodup ∧
    (setup ctx).trump ∉ allHands (setup ctx).players ∧
    (setup ctx).trump ∉ (setup ctx).deck.map some := by
  have hd : d.length = 36 := by
    rw [hp.length_eq]
    decide
  have hall := (setup_all_cards ctx d hs hd h5).trans (hp.map some)
  have hnd : (createDeck.map some).Nodup :=
    List.Nodup.map (Option.some_injective Card) (by decide)
  have hnodup := (hall.nodup_iff).mpr hnd
  refine ⟨hall, hnodup, ?_, ?_⟩
  · intro hmem
    rw [List.append_assoc] at hnodup
    exact (List.disjoint_of_nodup_append hnodup) hmem (by simp)
  · intro hmem
    rw [List.append_assoc] at hnodup
    have h1 := (List.nodup_append.mp hnodup).2.1
    exact (List.disjoint_of_nodup_append h1) (by simp) hmem

/-- Witness of C19: two players, the deck left as created. -/
theorem setup_partitions_witness :
    (allHands (setup (plainCtx 2)).players ++ [(setup (plainCtx 2)).trump] ++
        (setup (plainCtx 2)).deck.map some).Perm (createDeck.map some) ∧
    (allHands (setup (plainCtx 2)).players ++ [(setup (plainCtx 2)).trump] ++
        (setup (plainCtx 2)).deck.map some).Nodup ∧
    (setup (plainCtx 2)).trump ∉ allHands (setup (plainCtx 2)).players ∧
    (setup (plainCtx 2)).trump ∉ (setup (plainCtx 2)).deck.map some :=
  setup_partitions (plainCtx 2) createDeck rfl (List.Perm.refl _) (by decide) (by decide)

/-- C20: the phase tables, read through `flow.phases`. The declared phases are
`attacking` and `defending`; the first lists exactly `attack`, the second
exactly `attack`, `defend`, `deflect` and `surrender`, so in `attacking` the
moves that pass the gate are the attacks and in `defending` the attacks,
defends, deflects and the surrender. In every declared phase and every state
an `acknowledge` request is dropped (while a `surrender` in `defending` is
made), and `endPhaseIf` of either phase is `false` on every state. -/
theorem phase_tables :
    phases.map (fun ph => ph.1) = ["attacking", "defending"] ∧
    (phases.lookup "attacking").map (fun conf => conf.allowedMoves) = some ["attack"] ∧
    (phases.lookup "defending").map (fun conf => conf.allowedMoves) =
      some ["attack", "defend", "deflect", "surrender"] ∧
    (∀ m : Move, canMakeMove "attacking" m = true ↔ ∃ c playerId, m = Move.attack c playerId) ∧
    (∀ m : Move, canMakeMove "defending" m = true ↔
      ((∃ c playerId, m = Move.attack c playerId) ∨ (∃ slot c, m = Move.defend slot c) ∨
        (∃ c, m = Move.deflect c) ∨ m = Move.surrender)) ∧
    (∀ (G : GameState) (playerId : Nat),
      phases.all (fun ph => (makeMove ph.1 G (Move.acknowledge playerId)).isNone) = true ∧
      makeMove "attacking" G (Move.acknowledge playerId) = none ∧
      makeMove "defending" G (Move.acknowledge playerId) = none) ∧
    (∀ G : GameState, makeMove "defending" G Move.surrender = some (surrender G)) ∧
    (∀ G : GameState,
      (phases.lookup "attacking").map (fun conf => conf.endPhaseIf G) = some false ∧
      (phases.lookup "defending").map (fun conf => conf.endPhaseIf G) = some false ∧
      phases.all (fun ph => !ph.2.endPhaseIf G) = true) := by
  have hA : ∀ m : Move, canMakeMove "attacking" m = attacking.allowedMoves.contains (moveName m) :=
    fun _ => rfl
  have hD : ∀ m : Move, canMakeMove "defending" m = defending.allowedMoves.contains (moveName m) :=
    fun _ => rfl
  have hackA : ∀ playerId : Nat, canMakeMove "attacking" (Move.acknowledge playerId) = false :=
    fun _ => rfl
  have hackD : ∀ playerId : Nat, canMakeMove "defending" (Move.acknowledge playerId) = false :=
    fun _ => rfl
  refine ⟨rfl, rfl, rfl, ?_, ?_, ?_, ?_, fun _ => ⟨rfl, rfl, rfl⟩⟩
  · intro m
    rw [hA]
    cases m <;> simp [moveName, attacking]
  · intro m
    rw [hD]
    cases m <;> simp [moveName, defending]
  · intro G playerId
    simp [phases, makeMove, hackA, hackD]
  · intro G
    have h : canMakeMove "defending" Move.surrender = true := rfl
    simp [makeMove, h, applyMove]

end Durak
